import Mathlib

/-!
Verification development for the adaptive quiz difficulty-adaptation loop:
a shallow embedding of `ml_model/adaptive_quiz_model.py` and
`ml_model/student_tracker.py`, with the spec's claims settled as theorems.

Python floats are modelled as rationals (ℚ); the smoothing and clamping
arithmetic of the source is exact at the constants involved.  The sklearn
regressor and scaler are external-library black boxes: their composed
`transform`+`predict` step is modelled as an opaque fallible function
(`infer`), and the `train_test_split`+`fit_transform`+`fit` step as an
opaque fallible `fit` that on success yields a new inference function.
Python exceptions are modelled with `Except`.  Calendar dates (the
`'%Y-%m-%d'` strings compared by the streak logic) are modelled as day
numbers in ℤ, with "yesterday" being `today - 1`.
-/

namespace BTP

/-- The performance dict built by `StudentTracker.get_student_performance`
and consumed by `AdaptiveQuizModel.extract_features` /
`predict_difficulty` / `_calculate_heuristic_difficulty`.  The
`streak_days` / `grade` / `favorite_state` keys are present only in the
non-empty-history branch of `get_student_performance`, hence `Option`. -/
structure PerformanceData where
  student_id : String
  current_difficulty : ℚ
  accuracy : ℚ
  avg_response_time : ℚ
  avg_attempts : ℚ
  recent_accuracy : ℚ
  total_questions : ℕ
  states_visited_count : ℕ
  streak_days : Option ℕ
  grade : Option ℕ
  favorite_state : Option String
deriving Repr, DecidableEq

/-- Embeds `AdaptiveQuizModel.extract_features`: the 5-entry feature vector, in
source order, with the response-time and attempts entries clamped from
above by `min ... 1`. -/
def extract_features (performance_data : PerformanceData) : List ℚ :=
  [ min (performance_data.avg_response_time / 60) 1,
    performance_data.accuracy,
    min (performance_data.avg_attempts / 5) 1,
    performance_data.current_difficulty / 10,
    performance_data.recent_accuracy ]

/-- Embeds `AdaptiveQuizModel._calculate_heuristic_difficulty`. -/
def calculate_heuristic_difficulty (performance_data : PerformanceData) : ℚ :=
  if performance_data.accuracy > 8/10 then
    min 10 (performance_data.current_difficulty + 1/2)
  else if performance_data.accuracy < 4/10 then
    max 1 (performance_data.current_difficulty - 1/2)
  else
    performance_data.current_difficulty

/-- The state of `AdaptiveQuizModel`: the trained flag, the composed
scaler+regressor inference step (opaque sklearn code, fallible), and the
fitting step used by `train_model` (opaque sklearn
`train_test_split` + `StandardScaler.fit_transform` + `fit`, fallible;
on success it yields the new fitted inference function). -/
structure AdaptiveQuizModel where
  is_trained : Bool
  n_estimators : ℕ
  infer : List ℚ → Except String ℚ
  fit : List (List ℚ × ℚ) → Except String (List ℚ → Except String ℚ)

/-- A training data point: a performance dict plus the supervisory
`optimal_difficulty` label read with `.get('optimal_difficulty', 5.0)`. -/
structure TrainingSample where
  data : PerformanceData
  optimal_difficulty : ℚ

/-- Embeds `AdaptiveQuizModel.predict_difficulty`: heuristic when untrained;
otherwise scale+predict and clamp into [1, 10], falling back to the
heuristic if the inference step raises. -/
def predict_difficulty (m : AdaptiveQuizModel) (performance_data : PerformanceData) : ℚ :=
  if !m.is_trained then
    calculate_heuristic_difficulty performance_data
  else
    match m.infer (extract_features performance_data) with
    | Except.ok predicted_difficulty => max 1 (min 10 predicted_difficulty)
    | Except.error _ => calculate_heuristic_difficulty performance_data

/-- Embeds `AdaptiveQuizModel.train_model`: refuse fewer than 10 samples
untouched; otherwise extract features paired with labels and run the
fitting step, flipping `is_trained` on success and leaving the model
unchanged if fitting raises. -/
def train_model (m : AdaptiveQuizModel) (training_data : List TrainingSample) :
    AdaptiveQuizModel × Bool :=
  if training_data.length < 10 then (m, false)
  else
    match m.fit (training_data.map fun dp =>
        (extract_features dp.data, dp.optimal_difficulty)) with
    | Except.ok fitted => ({ m with infer := fitted, is_trained := true }, true)
    | Except.error _ => (m, false)

/-- The dict returned by `AdaptiveQuizModel.get_model_info`. -/
structure ModelInfo where
  is_trained : Bool
  n_estimators : ℕ
  feature_count : ℕ
deriving Repr, DecidableEq

/-- Embeds `AdaptiveQuizModel.get_model_info`. -/
def get_model_info (m : AdaptiveQuizModel) : ModelInfo :=
  { is_trained := m.is_trained,
    n_estimators := if m.is_trained then m.n_estimators else 0,
    feature_count := 5 }

/-- The persisted blob written by `save_model` and read by `load_model`:
regressor+scaler (their composed inference), and the saved trained flag. -/
structure ModelBlob where
  infer : List ℚ → Except String ℚ
  n_estimators : ℕ
  is_trained : Bool

/-- Embeds `AdaptiveQuizModel.load_model`: `none` models a failing
`joblib.load` (returns `False`, state untouched); on success the model,
scaler and `is_trained` flag are all overwritten from the blob. -/
def load_model (m : AdaptiveQuizModel) (blob : Option ModelBlob) :
    AdaptiveQuizModel × Bool :=
  match blob with
  | none => (m, false)
  | some b =>
      ({ m with infer := b.infer, n_estimators := b.n_estimators,
                is_trained := b.is_trained }, true)

/-- Embeds `AdaptiveQuizModel.__init__`: a fresh untrained model (50 estimators,
unfitted inference `infer0`, fitting oracle `fit0`), followed by
`load_model` when a persisted blob exists at `model_path`. -/
def AdaptiveQuizModel.init (infer0 : List ℚ → Except String ℚ)
    (fit0 : List (List ℚ × ℚ) → Except String (List ℚ → Except String ℚ))
    (preloaded : Option ModelBlob) : AdaptiveQuizModel :=
  let m : AdaptiveQuizModel :=
    { is_trained := false, n_estimators := 50, infer := infer0, fit := fit0 }
  match preloaded with
  | none => m
  | some b => (load_model m (some b)).1

/-! ### `ml_model/student_tracker.py` -/

/-- One entry of a student's performance history, as appended by
`record_quiz_attempt` (the `timestamp` is the attempt's calendar day). -/
structure PerformanceRecord where
  timestamp : ℤ
  question_id : ℕ
  difficulty : ℚ
  response_time : ℚ
  is_correct : Bool
  attempts : ℕ
  state : Option String
deriving Repr, DecidableEq

/-- One value of the `StudentTracker.students` dict. -/
structure Student where
  name : String
  grade : ℕ
  favorite_state : String
  current_difficulty : ℚ
  total_questions : ℕ
  correct_answers : ℕ
  total_attempts : ℕ
  avg_response_time : ℚ
  last_quiz_date : ℤ
  streak_days : ℕ
  states_visited : List String
deriving Repr, DecidableEq

/-- The in-memory state of `StudentTracker`: the `students` dict and the
`performance_history` dict (absent history keys and `[]` entries are
identified: the source initialises a missing key to `[]` before use). -/
structure StudentTracker where
  students : String → Option Student
  performance_history : String → List PerformanceRecord

/-- A tracker with no students (`__init__` when no CSV file exists). -/
def StudentTracker.empty : StudentTracker :=
  { students := fun _ => none, performance_history := fun _ => [] }

/-- Embeds `StudentTracker.create_student` (`today` is the wall-clock date
`datetime.now().strftime('%Y-%m-%d')` read at creation time). -/
def create_student (t : StudentTracker) (student_id name : String) (grade : ℕ)
    (favorite_state : String) (today : ℤ) : StudentTracker × Bool :=
  match t.students student_id with
  | some _ => (t, false)
  | none =>
      ({ students := fun x => if x = student_id then
            some { name := name, grade := grade, favorite_state := favorite_state,
                   current_difficulty := 1, total_questions := 0, correct_answers := 0,
                   total_attempts := 0, avg_response_time := 0,
                   last_quiz_date := today, streak_days := 0, states_visited := [] }
          else t.students x,
         performance_history := fun x => if x = student_id then []
          else t.performance_history x }, true)

/-- The history-trimming step of `record_quiz_attempt`:
`history[-100:]` once the log exceeds 100 entries. -/
def trimHistory (h : List PerformanceRecord) : List PerformanceRecord :=
  if h.length > 100 then h.drop (h.length - 100) else h

/-- Embeds `StudentTracker.record_quiz_attempt` (`today` is the wall-clock date;
the streak compares it with the stored `last_quiz_date`, "yesterday"
being `today - 1`). -/
def record_quiz_attempt (t : StudentTracker) (student_id : String)
    (question_id : ℕ) (difficulty response_time : ℚ) (is_correct : Bool)
    (attempts : ℕ) (state : Option String) (today : ℤ) :
    StudentTracker × Bool :=
  match t.students student_id with
  | none => (t, false)
  | some student =>
      let total_questions := student.total_questions + 1
      let total_attempts := student.total_attempts + attempts
      let correct_answers :=
        if is_correct then student.correct_answers + 1 else student.correct_answers
      let avg_response_time :=
        if total_questions = 1 then response_time
        else (1 - 3/10) * student.avg_response_time + (3/10) * response_time
      let streak_days :=
        if student.last_quiz_date = today then student.streak_days
        else if student.last_quiz_date = today - 1 then student.streak_days + 1
        else 1
      let states_visited :=
        match state with
        | some st =>
            if st ≠ "" ∧ st ∉ student.states_visited then
              student.states_visited ++ [st]
            else student.states_visited
        | none => student.states_visited
      let performance_record : PerformanceRecord :=
        { timestamp := today, question_id := question_id, difficulty := difficulty,
          response_time := response_time, is_correct := is_correct,
          attempts := attempts, state := state }
      let history := trimHistory (t.performance_history student_id ++ [performance_record])
      ({ students := fun x => if x = student_id then
            some ({ student with
                    total_questions := total_questions,
                    total_attempts := total_attempts,
                    correct_answers := correct_answers,
                    avg_response_time := avg_response_time,
                    last_quiz_date := today,
                    streak_days := streak_days,
                    states_visited := states_visited })
          else t.students x,
         performance_history := fun x => if x = student_id then history
          else t.performance_history x }, true)

/-- Embeds `StudentTracker.get_student_performance`. -/
def get_student_performance (t : StudentTracker) (student_id : String) :
    Option PerformanceData :=
  match t.students student_id with
  | none => none
  | some student =>
      let history := t.performance_history student_id
      if history.isEmpty then
        some { student_id := student_id,
               current_difficulty := student.current_difficulty,
               accuracy := 1/2,
               avg_response_time := student.avg_response_time,
               avg_attempts := 1,
               recent_accuracy := 1/2,
               total_questions := student.total_questions,
               states_visited_count := student.states_visited.length,
               streak_days := none, grade := none, favorite_state := none }
      else
        let recent_history :=
          if history.length ≥ 10 then history.drop (history.length - 10) else history
        let recent_correct := (recent_history.filter fun r => r.is_correct).length
        let recent_accuracy : ℚ := (recent_correct : ℚ) / (recent_history.length : ℚ)
        let avg_attempts : ℚ :=
          ((history.map fun r => (r.attempts : ℚ)).sum) / (history.length : ℚ)
        let overall_accuracy : ℚ :=
          (student.correct_answers : ℚ) / ((max student.total_questions 1 : ℕ) : ℚ)
        some { student_id := student_id,
               current_difficulty := student.current_difficulty,
               accuracy := overall_accuracy,
               avg_response_time := student.avg_response_time,
               avg_attempts := avg_attempts,
               recent_accuracy := recent_accuracy,
               total_questions := student.total_questions,
               states_visited_count := student.states_visited.length,
               streak_days := some student.streak_days,
               grade := some student.grade,
               favorite_state := some student.favorite_state }

/-- Embeds `StudentTracker.update_difficulty`. -/
def update_difficulty (t : StudentTracker) (student_id : String)
    (new_difficulty : ℚ) : StudentTracker × Bool :=
  match t.students student_id with
  | none => (t, false)
  | some student =>
      ({ t with students := fun x => if x = student_id then
            some { student with current_difficulty := new_difficulty }
          else t.students x }, true)

/-- The arguments of one `record_quiz_attempt` call (used to state
properties of sequences of recordings). -/
structure AttemptInput where
  question_id : ℕ
  difficulty : ℚ
  response_time : ℚ
  is_correct : Bool
  attempts : ℕ
  state : Option String
  today : ℤ
deriving Repr, DecidableEq

/-- The `PerformanceRecord` that `record_quiz_attempt` appends for a
given `AttemptInput`. -/
def AttemptInput.toRecord (i : AttemptInput) : PerformanceRecord :=
  { timestamp := i.today, question_id := i.question_id, difficulty := i.difficulty,
    response_time := i.response_time, is_correct := i.is_correct,
    attempts := i.attempts, state := i.state }

/-- Run `record_quiz_attempt` once for each input in order. -/
def recordMany (t : StudentTracker) (student_id : String)
    (inputs : List AttemptInput) : StudentTracker :=
  inputs.foldl (fun t i =>
    (record_quiz_attempt t student_id i.question_id i.difficulty i.response_time
      i.is_correct i.attempts i.state i.today).1) t

/-- States of `StudentTracker` reachable through the in-memory operations
(the CSV persistence layer is an external collaborator, out of the spec's
scope). -/
inductive Reachable : StudentTracker → Prop
  | empty : Reachable StudentTracker.empty
  | create (t : StudentTracker) (sid name : String) (grade : ℕ) (fav : String)
      (today : ℤ) : Reachable t →
      Reachable (create_student t sid name grade fav today).1
  | record (t : StudentTracker) (sid : String) (qid : ℕ) (diff rt : ℚ)
      (ic : Bool) (att : ℕ) (st : Option String) (today : ℤ) : Reachable t →
      Reachable (record_quiz_attempt t sid qid diff rt ic att st today).1
  | update (t : StudentTracker) (sid : String) (d : ℚ) : Reachable t →
      Reachable (update_difficulty t sid d).1

/-! ### Concrete fixtures used by the witness theorems -/

/-- A snapshot with high accuracy (0.9) at difficulty 3. -/
def pHigh : PerformanceData :=
  { student_id := "s", current_difficulty := 3, accuracy := 9/10,
    avg_response_time := 20, avg_attempts := 1, recent_accuracy := 1/2,
    total_questions := 5, states_visited_count := 0,
    streak_days := none, grade := none, favorite_state := none }

/-- A snapshot with low accuracy (0.1) at difficulty 3. -/
def pLow : PerformanceData := { pHigh with accuracy := 1/10 }

/-- A snapshot sitting exactly on the upper boundary (accuracy 0.8). -/
def pMidHigh : PerformanceData := { pHigh with accuracy := 8/10 }

/-- A snapshot sitting exactly on the lower boundary (accuracy 0.4). -/
def pMidLow : PerformanceData := { pHigh with accuracy := 4/10 }

/-- A constant fitted inference function (stands for a fitted
scaler+regressor pair). -/
def constFit : List ℚ → Except String ℚ := fun _ => Except.ok 5

/-- An untrained model whose unfitted inference raises (sklearn raises
`NotFittedError` when predicting before `fit`) and whose fitting step
succeeds. -/
def mUntrained : AdaptiveQuizModel :=
  { is_trained := false, n_estimators := 50,
    infer := fun _ => Except.error "NotFittedError",
    fit := fun _ => Except.ok constFit }

/-- A model whose fitting step raises. -/
def mFitFails : AdaptiveQuizModel :=
  { mUntrained with fit := fun _ => Except.error "ValueError" }

/-- A persisted blob carrying a trained flag set to `true`. -/
def blobTrained : ModelBlob :=
  { infer := constFit, n_estimators := 50, is_trained := true }

/-- One labelled training sample. -/
def sample0 : TrainingSample := { data := pHigh, optimal_difficulty := 5 }

/-- Nine labelled training samples (below the minimum of 10). -/
def sampleList9 : List TrainingSample := List.replicate 9 sample0

/-- Ten labelled training samples (the minimum accepted). -/
def sampleList10 : List TrainingSample := List.replicate 10 sample0

/-- A tracker holding the single student `"s1"`, created on day 1. -/
def tW1 : StudentTracker :=
  (create_student StudentTracker.empty "s1" "Alice" 5 "General" 1).1

/-- The tracker `tW1` after one attempt on day 1 (response time 15). -/
def tW2 : StudentTracker :=
  (record_quiz_attempt tW1 "s1" 1 2 15 true 1 none 1).1

/-- The tracker `tW2` after a second attempt on day 2 (response time 25). -/
def tW3 : StudentTracker :=
  (record_quiz_attempt tW2 "s1" 2 2 25 true 1 none 2).1

/-- The state of student `"s1"` in `tW2`. -/
def studentAfterFirst : Student :=
  { name := "Alice", grade := 5, favorite_state := "General",
    current_difficulty := 1, total_questions := 1, correct_answers := 1,
    total_attempts := 1, avg_response_time := 15, last_quiz_date := 1,
    streak_days := 0, states_visited := [] }

/-- The state of student `"s1"` in `tW3` (average response time
`0.7*15 + 0.3*25 = 18`). -/
def studentAfterSecond : Student :=
  { name := "Alice", grade := 5, favorite_state := "General",
    current_difficulty := 1, total_questions := 2, correct_answers := 2,
    total_attempts := 2, avg_response_time := 18, last_quiz_date := 2,
    streak_days := 1, states_visited := [] }

/-- The state of student `"s1"` in `tW1`. -/
def studentFresh : Student :=
  { name := "Alice", grade := 5, favorite_state := "General",
    current_difficulty := 1, total_questions := 0, correct_answers := 0,
    total_attempts := 0, avg_response_time := 0, last_quiz_date := 1,
    streak_days := 0, states_visited := [] }

/-- One attempt given as input 105 times in a row. -/
def inp0 : AttemptInput :=
  { question_id := 1, difficulty := 2, response_time := 15, is_correct := true,
    attempts := 1, state := none, today := 1 }

/-- A run of 105 identical attempts. -/
def inputs105 : List AttemptInput := List.replicate 105 inp0

/-- The updated student stored by a successful `record_quiz_attempt`. -/
def recordedStudent (s : Student) (rt : ℚ) (ic : Bool) (att : ℕ)
    (st : Option String) (today : ℤ) : Student :=
  { s with
    total_questions := s.total_questions + 1,
    total_attempts := s.total_attempts + att,
    correct_answers := if ic then s.correct_answers + 1 else s.correct_answers,
    avg_response_time := if s.total_questions + 1 = 1 then rt
      else (1 - 3/10) * s.avg_response_time + (3/10) * rt,
    last_quiz_date := today,
    streak_days := if s.last_quiz_date = today then s.streak_days
      else if s.last_quiz_date = today - 1 then s.streak_days + 1 else 1,
    states_visited := match st with
      | some stv => if stv ≠ "" ∧ stv ∉ s.states_visited then
          s.states_visited ++ [stv] else s.states_visited
      | none => s.states_visited }

/-! ### Helper lemmas -/

/-- The heuristic keeps the difficulty inside [1, 10] whenever the
incoming current difficulty is inside [1, 10]. -/
lemma calculate_heuristic_difficulty_bounds (p : PerformanceData)
    (h1 : 1 ≤ p.current_difficulty) (h10 : p.current_difficulty ≤ 10) :
    1 ≤ calculate_heuristic_difficulty p ∧ calculate_heuristic_difficulty p ≤ 10 := by
  unfold calculate_heuristic_difficulty
  split_ifs with ha hb
  · exact ⟨le_min (by norm_num) (by linarith), min_le_left _ _⟩
  · exact ⟨le_max_left _ _, max_le (by norm_num) (by linarith)⟩
  · exact ⟨h1, h10⟩

/-! ### Claims about the adaptive predictor -/

/-- C2: the heuristic is a pure function of the snapshot returning
`min 10 (current_difficulty + 0.5)` when `accuracy > 0.8`,
`max 1 (current_difficulty - 0.5)` when `accuracy < 0.4`, and the
current difficulty unchanged otherwise; in particular accuracy exactly
0.8 or exactly 0.4 falls in the unchanged branch (both bounds strict). -/
theorem heuristic_difficulty_cases (p : PerformanceData) :
    (8/10 < p.accuracy →
      calculate_heuristic_difficulty p = min 10 (p.current_difficulty + 1/2)) ∧
    (p.accuracy < 4/10 →
      calculate_heuristic_difficulty p = max 1 (p.current_difficulty - 1/2)) ∧
    (4/10 ≤ p.accuracy → p.accuracy ≤ 8/10 →
      calculate_heuristic_difficulty p = p.current_difficulty) := by
  unfold calculate_heuristic_difficulty
  refine ⟨fun h => ?_, fun h => ?_, fun h1 h2 => ?_⟩
  · rw [if_pos h]
  · rw [if_neg (by intro h'; exact absurd h (by simp only [gt_iff_lt] at h'; intro _; linarith)), if_pos h]
  · rw [if_neg (not_lt.mpr h2), if_neg (not_lt.mpr h1)]

/-- Witness for C2: the four accuracy regimes 0.9, 0.1, 0.8 and 0.4 at
current difficulty 3. -/
theorem heuristic_difficulty_cases_witness :
    ((8:ℚ)/10 < 9/10 ∧ calculate_heuristic_difficulty pHigh = min 10 (pHigh.current_difficulty + 1/2)) ∧
    ((1:ℚ)/10 < 4/10 ∧ calculate_heuristic_difficulty pLow = max 1 (pLow.current_difficulty - 1/2)) ∧
    ((4:ℚ)/10 ≤ 8/10 ∧ calculate_heuristic_difficulty pMidHigh = pMidHigh.current_difficulty) ∧
    ((4:ℚ)/10 ≤ 4/10 ∧ calculate_heuristic_difficulty pMidLow = pMidLow.current_difficulty) :=
  ⟨⟨by norm_num, (heuristic_difficulty_cases pHigh).1 (by norm_num [pHigh])⟩,
   ⟨by norm_num, (heuristic_difficulty_cases pLow).2.1 (by norm_num [pLow, pHigh])⟩,
   ⟨by norm_num, (heuristic_difficulty_cases pMidHigh).2.2
      (by norm_num [pMidHigh, pHigh]) (by norm_num [pMidHigh, pHigh])⟩,
   ⟨by norm_num, (heuristic_difficulty_cases pMidLow).2.2
      (by norm_num [pMidLow, pHigh]) (by norm_num [pMidLow, pHigh])⟩⟩

/-- C1: for every snapshot with current difficulty in [1, 10],
`predict_difficulty` returns a value in [1, 10] whatever the trained
state; when the model is untrained, and when the inference step raises,
the heuristic result is returned instead of propagating a failure. -/
theorem predict_difficulty_spec (m : AdaptiveQuizModel) (p : PerformanceData) :
    (1 ≤ p.current_difficulty → p.current_difficulty ≤ 10 →
      1 ≤ predict_difficulty m p ∧ predict_difficulty m p ≤ 10) ∧
    (m.is_trained = false →
      predict_difficulty m p = calculate_heuristic_difficulty p) ∧
    (∀ e, m.infer (extract_features p) = Except.error e →
      predict_difficulty m p = calculate_heuristic_difficulty p) := by
  unfold predict_difficulty
  cases hm : m.is_trained with
  | false =>
      refine ⟨fun h1 h10 => ?_, fun _ => by simp, fun e _ => by simp⟩
      simpa using calculate_heuristic_difficulty_bounds p h1 h10
  | true =>
      simp only [Bool.not_true, Bool.false_eq_true, if_false]
      cases hi : m.infer (extract_features p) with
      | ok d =>
          refine ⟨fun h1 h10 => ?_, fun hf => Bool.noConfusion hf,
            fun e he => Except.noConfusion he⟩
          exact ⟨le_max_left _ _, max_le (by norm_num) (le_trans (min_le_left _ _) (by norm_num))⟩
      | error e' =>
          refine ⟨fun h1 h10 => ?_, fun _ => rfl, fun e _ => rfl⟩
          exact calculate_heuristic_difficulty_bounds p h1 h10

/-- Witness for C1: the untrained model with raising inference, at the
high-accuracy snapshot of difficulty 3. -/
theorem predict_difficulty_spec_witness :
    (1 ≤ pHigh.current_difficulty ∧ pHigh.current_difficulty ≤ 10) ∧
    mUntrained.is_trained = false ∧
    mUntrained.infer (extract_features pHigh) = Except.error "NotFittedError" ∧
    (1 ≤ predict_difficulty mUntrained pHigh ∧ predict_difficulty mUntrained pHigh ≤ 10) ∧
    predict_difficulty mUntrained pHigh = calculate_heuristic_difficulty pHigh :=
  ⟨⟨by norm_num [pHigh], by norm_num [pHigh]⟩, rfl, rfl,
   (predict_difficulty_spec mUntrained pHigh).1 (by norm_num [pHigh]) (by norm_num [pHigh]),
   (predict_difficulty_spec mUntrained pHigh).2.1 rfl⟩

/-- C9: the feature vector has exactly 5 entries in the fixed order
(response time / 60, accuracy, attempts / 5, difficulty / 10, recent
accuracy), and under the snapshot's field ranges every entry lies in
[0, 1]. -/
theorem extract_features_spec (p : PerformanceData)
    (hrt : 0 ≤ p.avg_response_time) (hacc0 : 0 ≤ p.accuracy) (hacc1 : p.accuracy ≤ 1)
    (hatt : 0 ≤ p.avg_attempts) (hd1 : 1 ≤ p.current_difficulty)
    (hd10 : p.current_difficulty ≤ 10) (hra0 : 0 ≤ p.recent_accuracy)
    (hra1 : p.recent_accuracy ≤ 1) :
    extract_features p =
      [min (p.avg_response_time / 60) 1, p.accuracy, min (p.avg_attempts / 5) 1,
       p.current_difficulty / 10, p.recent_accuracy] ∧
    (extract_features p).length = 5 ∧
    ∀ x ∈ extract_features p, 0 ≤ x ∧ x ≤ 1 := by
  refine ⟨rfl, rfl, fun x hx => ?_⟩
  simp only [extract_features, List.mem_cons, List.not_mem_nil, or_false] at hx
  rcases hx with h | h | h | h | h <;> subst h
  · exact ⟨le_min (div_nonneg hrt (by norm_num)) (by norm_num), min_le_right _ _⟩
  · exact ⟨hacc0, hacc1⟩
  · exact ⟨le_min (div_nonneg hatt (by norm_num)) (by norm_num), min_le_right _ _⟩
  · exact ⟨div_nonneg (by linarith) (by norm_num), by rw [div_le_one (by norm_num)]; linarith⟩
  · exact ⟨hra0, hra1⟩

/-- Witness for C9: the high-accuracy snapshot (response time 20,
accuracy 0.9, 1 attempt, difficulty 3, recent accuracy 0.5). -/
theorem extract_features_spec_witness :
    ((0:ℚ) ≤ pHigh.avg_response_time ∧ 0 ≤ pHigh.accuracy ∧ pHigh.accuracy ≤ 1 ∧
     0 ≤ pHigh.avg_attempts ∧ 1 ≤ pHigh.current_difficulty ∧
     pHigh.current_difficulty ≤ 10 ∧ 0 ≤ pHigh.recent_accuracy ∧ pHigh.recent_accuracy ≤ 1) ∧
    (extract_features pHigh).length = 5 ∧
    ∀ x ∈ extract_features pHigh, 0 ≤ x ∧ x ≤ 1 := by
  have hyp : (0:ℚ) ≤ pHigh.avg_response_time ∧ 0 ≤ pHigh.accuracy ∧ pHigh.accuracy ≤ 1 ∧
      0 ≤ pHigh.avg_attempts ∧ 1 ≤ pHigh.current_difficulty ∧
      pHigh.current_difficulty ≤ 10 ∧ 0 ≤ pHigh.recent_accuracy ∧ pHigh.recent_accuracy ≤ 1 := by
    norm_num [pHigh]
  obtain ⟨h1, h2, h3, h4, h5, h6, h7, h8⟩ := hyp
  have h := extract_features_spec pHigh h1 h2 h3 h4 h5 h6 h7 h8
  exact ⟨⟨h1, h2, h3, h4, h5, h6, h7, h8⟩, h.2.1, h.2.2⟩

/-- C3: training with fewer than 10 samples fails and leaves the model
(and hence `get_model_info().is_trained`) untouched; with 10 or more
samples whose fit succeeds ("valid samples"), training returns success
and flips the trained flag to `True`. -/
theorem train_model_spec (m : AdaptiveQuizModel) (training_data : List TrainingSample) :
    (training_data.length < 10 →
      train_model m training_data = (m, false) ∧
      (get_model_info (train_model m training_data).1).is_trained = m.is_trained) ∧
    (∀ fitted, 10 ≤ training_data.length →
      m.fit (training_data.map fun dp => (extract_features dp.data, dp.optimal_difficulty))
        = Except.ok fitted →
      (train_model m training_data).2 = true ∧
      (get_model_info (train_model m training_data).1).is_trained = true) := by
  constructor
  · intro h
    unfold train_model
    rw [if_pos h]
    exact ⟨rfl, rfl⟩
  · intro fitted h hfit
    unfold train_model
    rw [if_neg (not_lt.mpr h), hfit]
    exact ⟨rfl, rfl⟩

/-- Witness for C3: an untrained model refuses 9 samples untouched and
accepts 10, flipping the reported trained flag. -/
theorem train_model_spec_witness :
    sampleList9.length < 10 ∧
    train_model mUntrained sampleList9 = (mUntrained, false) ∧
    (get_model_info (train_model mUntrained sampleList9).1).is_trained = mUntrained.is_trained ∧
    10 ≤ sampleList10.length ∧
    mUntrained.fit (sampleList10.map fun dp => (extract_features dp.data, dp.optimal_difficulty))
      = Except.ok constFit ∧
    (train_model mUntrained sampleList10).2 = true ∧
    (get_model_info (train_model mUntrained sampleList10).1).is_trained = true := by
  have h9 : sampleList9.length < 10 := by simp [sampleList9]
  have h10 : 10 ≤ sampleList10.length := by simp [sampleList10]
  have hfit : mUntrained.fit (sampleList10.map fun dp =>
      (extract_features dp.data, dp.optimal_difficulty)) = Except.ok constFit := rfl
  have ha := (train_model_spec mUntrained sampleList9).1 h9
  have hb := (train_model_spec mUntrained sampleList10).2 constFit h10 hfit
  exact ⟨h9, ha.1, ha.2, h10, hfit, hb.1, hb.2⟩

/-- Counterexample for C8: the claim says reload leaves the trained flag
with its prior value, but `load_model` overwrites the flag with the
persisted blob's value: loading a blob saved as trained flips an
untrained model to trained. -/
theorem load_model_changes_trained_flag :
    mUntrained.is_trained = false ∧
    (load_model mUntrained (some blobTrained)).1.is_trained = true :=
  ⟨rfl, rfl⟩

/-- C8 (amended): a successful `train_model` flips the trained flag to
`true`; a failed or undersized `train_model` and a failed `load_model`
leave it unchanged; construction initialises it to `false` before any
optional reload; but a successful `load_model` (and hence construction
with a persisted blob present) sets the flag to the blob's saved value,
so reload is a second path that can change the trained/untrained state.
Feature extraction, prediction and introspection are pure value
computations and touch no model state. -/
theorem trained_flag_transitions (m : AdaptiveQuizModel)
    (training_data : List TrainingSample) (b : ModelBlob)
    (infer0 : List ℚ → Except String ℚ)
    (fit0 : List (List ℚ × ℚ) → Except String (List ℚ → Except String ℚ)) :
    (training_data.length < 10 →
      (train_model m training_data).1.is_trained = m.is_trained) ∧
    (∀ e, m.fit (training_data.map fun dp => (extract_features dp.data, dp.optimal_difficulty))
        = Except.error e →
      (train_model m training_data).1.is_trained = m.is_trained) ∧
    (∀ fitted, 10 ≤ training_data.length →
      m.fit (training_data.map fun dp => (extract_features dp.data, dp.optimal_difficulty))
        = Except.ok fitted →
      (train_model m training_data).1.is_trained = true) ∧
    (load_model m none = (m, false)) ∧
    ((load_model m (some b)).1.is_trained = b.is_trained) ∧
    ((AdaptiveQuizModel.init infer0 fit0 none).is_trained = false) ∧
    ((AdaptiveQuizModel.init infer0 fit0 (some b)).is_trained = b.is_trained) := by
  refine ⟨fun h => ?_, fun e he => ?_, fun fitted h hfit => ?_, rfl, rfl, rfl, rfl⟩
  · unfold train_model
    rw [if_pos h]
  · unfold train_model
    by_cases h : training_data.length < 10
    · rw [if_pos h]
    · rw [if_neg h, he]
  · unfold train_model
    rw [if_neg (not_lt.mpr h), hfit]

/-- Witness for C8 (amended): the undersized, fit-failing and successful
training paths, plus reload and construction, at concrete models. -/
theorem trained_flag_transitions_witness :
    sampleList9.length < 10 ∧
    (train_model mUntrained sampleList9).1.is_trained = mUntrained.is_trained ∧
    mFitFails.fit (sampleList10.map fun dp => (extract_features dp.data, dp.optimal_difficulty))
      = Except.error "ValueError" ∧
    (train_model mFitFails sampleList10).1.is_trained = mFitFails.is_trained ∧
    10 ≤ sampleList10.length ∧
    mUntrained.fit (sampleList10.map fun dp => (extract_features dp.data, dp.optimal_difficulty))
      = Except.ok constFit ∧
    (train_model mUntrained sampleList10).1.is_trained = true ∧
    load_model mUntrained none = (mUntrained, false) ∧
    (load_model mUntrained (some blobTrained)).1.is_trained = blobTrained.is_trained ∧
    (AdaptiveQuizModel.init mUntrained.infer mUntrained.fit none).is_trained = false ∧
    (AdaptiveQuizModel.init mUntrained.infer mUntrained.fit (some blobTrained)).is_trained
      = blobTrained.is_trained := by
  have h9 : sampleList9.length < 10 := by simp [sampleList9]
  have h10 : 10 ≤ sampleList10.length := by simp [sampleList10]
  have ha := trained_flag_transitions mUntrained sampleList9 blobTrained
    mUntrained.infer mUntrained.fit
  have hb := trained_flag_transitions mUntrained sampleList10 blobTrained
    mUntrained.infer mUntrained.fit
  have hc := trained_flag_transitions mFitFails sampleList10 blobTrained
    mUntrained.infer mUntrained.fit
  exact ⟨h9, ha.1 h9, rfl, hc.2.1 "ValueError" rfl, h10, rfl,
    hb.2.2.1 constFit h10 rfl, ha.2.2.2.1, ha.2.2.2.2.1, ha.2.2.2.2.2.1, ha.2.2.2.2.2.2⟩

/-! ### Helper lemmas about the tracker -/

/-- Trimming always keeps the last 100 entries: the guarded slice is the
same as an unconditional `drop`. -/
lemma trimHistory_eq_drop (h : List PerformanceRecord) :
    trimHistory h = h.drop (h.length - 100) := by
  unfold trimHistory
  split_ifs with hl
  · rfl
  · have h0 : h.length - 100 = 0 := by omega
    rw [h0, List.drop_zero]

/-- A trimmed history never exceeds 100 entries. -/
lemma trimHistory_length_le (h : List PerformanceRecord) :
    (trimHistory h).length ≤ 100 := by
  rw [trimHistory_eq_drop, List.length_drop]
  omega

/-- Trimming a history that fits the cap is the identity. -/
lemma trimHistory_of_le (h : List PerformanceRecord) (hl : h.length ≤ 100) :
    trimHistory h = h := by
  unfold trimHistory
  rw [if_neg (by omega)]

/-- Trimming after appending to a trimmed list gives the same result as
trimming the full concatenation. -/
lemma trimHistory_append_trim (a b : List PerformanceRecord) :
    trimHistory (trimHistory a ++ b) = trimHistory (a ++ b) := by
  rw [trimHistory_eq_drop a, trimHistory_eq_drop, trimHistory_eq_drop,
    ← List.drop_append_of_le_length (by omega : a.length - 100 ≤ a.length),
    List.drop_drop]
  have hcount : a.length - 100 + (((a ++ b).drop (a.length - 100)).length - 100)
      = (a ++ b).length - 100 := by
    simp only [List.length_drop, List.length_append]
    omega
  rw [hcount]

/-- Appending then trimming never yields the empty history. -/
lemma trimHistory_append_ne_nil (h : List PerformanceRecord)
    (r : PerformanceRecord) : trimHistory (h ++ [r]) ≠ [] := by
  apply List.ne_nil_of_length_pos
  rw [trimHistory_eq_drop, List.length_drop, List.length_append]
  simp only [List.length_cons, List.length_nil]
  omega

/-- Componentwise effect of a successful `record_quiz_attempt` on the
recorded student and on the student's history. -/
lemma record_quiz_attempt_spec (t : StudentTracker) (sid : String) (qid : ℕ)
    (diff rt : ℚ) (ic : Bool) (att : ℕ) (st : Option String) (today : ℤ)
    (s : Student) (hs : t.students sid = some s) :
    (record_quiz_attempt t sid qid diff rt ic att st today).2 = true ∧
    (record_quiz_attempt t sid qid diff rt ic att st today).1.performance_history sid
      = trimHistory (t.performance_history sid ++
          [{ timestamp := today, question_id := qid, difficulty := diff,
             response_time := rt, is_correct := ic, attempts := att, state := st }]) ∧
    (record_quiz_attempt t sid qid diff rt ic att st today).1.students sid
      = some (recordedStudent s rt ic att st today) := by
  unfold record_quiz_attempt
  rw [hs]
  refine ⟨rfl, by simp, by simp [recordedStudent]⟩

/-- Entries of other students are untouched by `record_quiz_attempt`. -/
lemma record_quiz_attempt_other (t : StudentTracker) (sid : String) (qid : ℕ)
    (diff rt : ℚ) (ic : Bool) (att : ℕ) (st : Option String) (today : ℤ)
    (x : String) (hx : x ≠ sid) :
    (record_quiz_attempt t sid qid diff rt ic att st today).1.students x = t.students x ∧
    (record_quiz_attempt t sid qid diff rt ic att st today).1.performance_history x
      = t.performance_history x := by
  unfold record_quiz_attempt
  cases hc : t.students sid with
  | none => exact ⟨rfl, rfl⟩
  | some s => refine ⟨?_, ?_⟩ <;> simp [hx]

/-- Componentwise effect of `create_student`. -/
lemma create_student_spec (t : StudentTracker) (sid name : String) (grade : ℕ)
    (fav : String) (today : ℤ) :
    (∀ s, t.students sid = some s →
      (create_student t sid name grade fav today) = (t, false)) ∧
    (t.students sid = none →
      (create_student t sid name grade fav today).2 = true ∧
      (create_student t sid name grade fav today).1.students sid
        = some { name := name, grade := grade, favorite_state := fav,
                 current_difficulty := 1, total_questions := 0, correct_answers := 0,
                 total_attempts := 0, avg_response_time := 0,
                 last_quiz_date := today, streak_days := 0, states_visited := [] } ∧
      (create_student t sid name grade fav today).1.performance_history sid = []) ∧
    (∀ x, x ≠ sid →
      (create_student t sid name grade fav today).1.students x = t.students x ∧
      (create_student t sid name grade fav today).1.performance_history x
        = t.performance_history x) := by
  unfold create_student
  refine ⟨fun s hs => by rw [hs], fun hn => ?_, fun x hx => ?_⟩
  · rw [hn]
    exact ⟨rfl, by simp, by simp⟩
  · cases hc : t.students sid with
    | none => refine ⟨?_, ?_⟩ <;> simp [hx]
    | some s => exact ⟨rfl, rfl⟩

/-- Componentwise effect of `update_difficulty`. -/
lemma update_difficulty_spec_lemma (t : StudentTracker) (sid : String) (d : ℚ)
    (s : Student) (hs : t.students sid = some s) :
    (update_difficulty t sid d).2 = true ∧
    (update_difficulty t sid d).1.students sid
      = some { s with current_difficulty := d } ∧
    (update_difficulty t sid d).1.performance_history = t.performance_history ∧
    (∀ x, x ≠ sid → (update_difficulty t sid d).1.students x = t.students x) := by
  unfold update_difficulty
  rw [hs]
  exact ⟨rfl, by simp, rfl, fun x hx => by simp only [if_neg hx]⟩

/-- The reachability invariant: a student with an empty history has the
initial zero average response time, and a student with a non-empty
history has recorded at least one question. -/
lemma reachable_inv (t : StudentTracker) (h : Reachable t) :
    ∀ sid s, t.students sid = some s →
      (t.performance_history sid = [] → s.avg_response_time = 0) ∧
      (t.performance_history sid ≠ [] → 1 ≤ s.total_questions) := by
  induction h with
  | empty =>
      intro sid s hs
      exact absurd hs (by simp [StudentTracker.empty])
  | create t₀ sid₀ name grade fav today _ ih =>
      intro sid s hs
      cases hc : t₀.students sid₀ with
      | some s₀ =>
          rw [(create_student_spec t₀ sid₀ name grade fav today).1 s₀ hc] at hs ⊢
          exact ih sid s hs
      | none =>
          by_cases hx : sid = sid₀
          · subst hx
            obtain ⟨-, hsid, hhist⟩ := (create_student_spec t₀ sid name grade fav today).2.1 hc
            rw [hsid] at hs
            obtain rfl : _ = s := Option.some_injective _ hs
            rw [hhist]
            exact ⟨fun _ => rfl, fun hne => absurd rfl hne⟩
          · obtain ⟨hstu, hhist⟩ := (create_student_spec t₀ sid₀ name grade fav today).2.2 sid hx
            rw [hstu] at hs
            rw [hhist]
            exact ih sid s hs
  | record t₀ sid₀ qid diff rt ic att st today _ ih =>
      intro sid s hs
      cases hc : t₀.students sid₀ with
      | none =>
          have ht : (record_quiz_attempt t₀ sid₀ qid diff rt ic att st today).1 = t₀ := by
            unfold record_quiz_attempt
            rw [hc]
          rw [ht] at hs ⊢
          exact ih sid s hs
      | some s₀ =>
          by_cases hx : sid = sid₀
          · subst hx
            obtain ⟨-, hhist, hs'⟩ :=
              record_quiz_attempt_spec t₀ sid qid diff rt ic att st today s₀ hc
            rw [hs'] at hs
            obtain rfl : _ = s := Option.some_injective _ hs
            rw [hhist]
            refine ⟨fun hnil => absurd hnil (trimHistory_append_ne_nil _ _), fun _ => ?_⟩
            exact Nat.succ_le_succ (Nat.zero_le _)
          · obtain ⟨hstu, hhist⟩ :=
              record_quiz_attempt_other t₀ sid₀ qid diff rt ic att st today sid hx
            rw [hstu] at hs
            rw [hhist]
            exact ih sid s hs
  | update t₀ sid₀ d _ ih =>
      intro sid s hs
      cases hc : t₀.students sid₀ with
      | none =>
          have ht : (update_difficulty t₀ sid₀ d).1 = t₀ := by
            unfold update_difficulty
            rw [hc]
          rw [ht] at hs ⊢
          exact ih sid s hs
      | some s₀ =>
          obtain ⟨-, hsid, hhist, hother⟩ := update_difficulty_spec_lemma t₀ sid₀ d s₀ hc
          rw [hhist]
          by_cases hx : sid = sid₀
          · subst hx
            rw [hsid] at hs
            obtain rfl : _ = s := Option.some_injective _ hs
            exact ih sid s₀ hc
          · rw [hother sid hx] at hs
            exact ih sid s hs

/-- Unfolding one step of `recordMany`. -/
lemma recordMany_cons (t : StudentTracker) (sid : String) (i : AttemptInput)
    (is : List AttemptInput) :
    recordMany t sid (i :: is) =
      recordMany (record_quiz_attempt t sid i.question_id i.difficulty i.response_time
        i.is_correct i.attempts i.state i.today).1 sid is := rfl

/-- Folding a run of recordings over an existing student appends all the
corresponding records and trims once at the end. -/
lemma recordMany_performance_history (sid : String) (inputs : List AttemptInput) :
    ∀ (t : StudentTracker) (s : Student), t.students sid = some s →
      (t.performance_history sid).length ≤ 100 →
      (recordMany t sid inputs).performance_history sid
        = trimHistory (t.performance_history sid ++ inputs.map AttemptInput.toRecord) := by
  induction inputs with
  | nil =>
      intro t s hs hlen
      unfold recordMany
      rw [List.foldl_nil, List.map_nil, List.append_nil]
      exact (trimHistory_of_le _ hlen).symm
  | cons i is ih =>
      intro t s hs hlen
      rw [recordMany_cons]
      obtain ⟨-, hhist, hs'⟩ := record_quiz_attempt_spec t sid i.question_id i.difficulty
        i.response_time i.is_correct i.attempts i.state i.today s hs
      rw [ih _ _ hs' (by rw [hhist]; exact trimHistory_length_le _), hhist,
        trimHistory_append_trim, List.append_assoc]
      rfl

/-- In every reachable tracker state, every history log fits the cap. -/
lemma reachable_history_length_le (t : StudentTracker) (h : Reachable t) :
    ∀ sid, (t.performance_history sid).length ≤ 100 := by
  induction h with
  | empty => intro sid; simp [StudentTracker.empty]
  | create t₀ sid₀ name grade fav today _ ih =>
      intro sid
      cases hc : t₀.students sid₀ with
      | some s₀ =>
          rw [(create_student_spec t₀ sid₀ name grade fav today).1 s₀ hc]
          exact ih sid
      | none =>
          by_cases hx : sid = sid₀
          · subst hx
            rw [((create_student_spec t₀ sid name grade fav today).2.1 hc).2.2]
            simp
          · rw [((create_student_spec t₀ sid₀ name grade fav today).2.2 sid hx).2]
            exact ih sid
  | record t₀ sid₀ qid diff rt ic att st today _ ih =>
      intro sid
      cases hc : t₀.students sid₀ with
      | none =>
          have ht : (record_quiz_attempt t₀ sid₀ qid diff rt ic att st today).1 = t₀ := by
            unfold record_quiz_attempt
            rw [hc]
          rw [ht]
          exact ih sid
      | some s₀ =>
          by_cases hx : sid = sid₀
          · subst hx
            rw [(record_quiz_attempt_spec t₀ sid qid diff rt ic att st today s₀ hc).2.1]
            exact trimHistory_length_le _
          · rw [(record_quiz_attempt_other t₀ sid₀ qid diff rt ic att st today sid hx).2]
            exact ih sid
  | update t₀ sid₀ d _ ih =>
      intro sid
      cases hc : t₀.students sid₀ with
      | none =>
          have ht : (update_difficulty t₀ sid₀ d).1 = t₀ := by
            unfold update_difficulty
            rw [hc]
          rw [ht]
          exact ih sid
      | some s₀ =>
          rw [(update_difficulty_spec_lemma t₀ sid₀ d s₀ hc).2.2.1]
          exact ih sid

/-- C6: no reachable history log exceeds 100 entries, and recording 105
attempts into an empty log leaves exactly the most recent 100 records,
the oldest 5 evicted, survivors in order. -/
theorem history_cap_spec :
    (∀ t : StudentTracker, Reachable t →
      ∀ sid, (t.performance_history sid).length ≤ 100) ∧
    (∀ (t : StudentTracker) (sid : String) (s : Student) (inputs : List AttemptInput),
      t.students sid = some s → t.performance_history sid = [] →
      inputs.length = 105 →
      (recordMany t sid inputs).performance_history sid
        = (inputs.map AttemptInput.toRecord).drop 5 ∧
      ((recordMany t sid inputs).performance_history sid).length = 100) := by
  refine ⟨reachable_history_length_le, fun t sid s inputs hs hh hlen => ?_⟩
  have hmain : (recordMany t sid inputs).performance_history sid
      = (inputs.map AttemptInput.toRecord).drop 5 := by
    rw [recordMany_performance_history sid inputs t s hs (by rw [hh]; simp), hh,
      List.nil_append, trimHistory_eq_drop, List.length_map, hlen]
  refine ⟨hmain, ?_⟩
  rw [hmain, List.length_drop, List.length_map, hlen]

/-- Witness for C6: a fresh student receiving 105 identical attempts. -/
theorem history_cap_spec_witness :
    (tW1.performance_history "s1").length ≤ 100 ∧
    tW1.students "s1" = some studentFresh ∧
    tW1.performance_history "s1" = [] ∧
    inputs105.length = 105 ∧
    (recordMany tW1 "s1" inputs105).performance_history "s1"
      = (inputs105.map AttemptInput.toRecord).drop 5 ∧
    ((recordMany tW1 "s1" inputs105).performance_history "s1").length = 100 := by
  have hreach : Reachable tW1 := Reachable.create _ _ _ _ _ _ Reachable.empty
  have hs : tW1.students "s1" = some studentFresh := rfl
  have hh : tW1.performance_history "s1" = [] := rfl
  have hlen : inputs105.length = 105 := by simp [inputs105]
  have hb := history_cap_spec.2 tW1 "s1" studentFresh inputs105 hs hh hlen
  exact ⟨history_cap_spec.1 tW1 hreach "s1", hs, hh, hlen, hb.1, hb.2⟩

/-- C5: the stored average response time after a recording equals the
supplied response time on the student's first recorded attempt, and
`0.7 * previous + 0.3 * new` on every subsequent one. -/
theorem avg_response_time_update (t : StudentTracker) (sid : String) (qid : ℕ)
    (diff rt : ℚ) (ic : Bool) (att : ℕ) (st : Option String) (today : ℤ)
    (s : Student) (hs : t.students sid = some s) :
    ∃ s', (record_quiz_attempt t sid qid diff rt ic att st today).1.students sid = some s' ∧
      (s.total_questions = 0 → s'.avg_response_time = rt) ∧
      (1 ≤ s.total_questions →
        s'.avg_response_time = (7/10) * s.avg_response_time + (3/10) * rt) := by
  obtain ⟨-, -, hs'⟩ := record_quiz_attempt_spec t sid qid diff rt ic att st today s hs
  refine ⟨_, hs', fun h0 => ?_, fun h1 => ?_⟩
  · simp [recordedStudent, h0]
  · simp only [recordedStudent]
    rw [if_neg (by omega : ¬ s.total_questions + 1 = 1)]
    norm_num

/-- Witness for C5: a first attempt stores 15.0 exactly, and a second
attempt with response time 25.0 stores `0.7*15 + 0.3*25 = 18.0`. -/
theorem avg_response_time_update_witness :
    tW1.students "s1" = some studentFresh ∧
    studentFresh.total_questions = 0 ∧
    (tW2.students "s1").map Student.avg_response_time = some 15 ∧
    tW2.students "s1" = some studentAfterFirst ∧
    1 ≤ studentAfterFirst.total_questions ∧
    (tW3.students "s1").map Student.avg_response_time = some 18 := by
  obtain ⟨s₁, hs₁, hfirst, -⟩ :=
    avg_response_time_update tW1 "s1" 1 2 15 true 1 none 1 studentFresh rfl
  obtain ⟨s₂, hs₂, -, hnext⟩ :=
    avg_response_time_update tW2 "s1" 2 2 25 true 1 none 2 studentAfterFirst rfl
  have h2 : (tW2.students "s1").map Student.avg_response_time = some 15 := by
    rw [show tW2.students "s1" = some s₁ from hs₁, Option.map_some']
    rw [hfirst rfl]
  have h3 : (tW3.students "s1").map Student.avg_response_time = some 18 := by
    rw [show tW3.students "s1" = some s₂ from hs₂, Option.map_some']
    rw [hnext (by decide)]
    norm_num [studentAfterFirst]
  exact ⟨rfl, rfl, h2, rfl, by decide, h3⟩

/-- Counterexample for C7: in the claim's own scenario — a student who
attempts on day 1 and again on day 2 — the code yields `streak_days = 1`,
not 2, when the student was created on day 1: `create_student` stores the
creation date as `last_quiz_date` (it is never "unset"), so the day-1
attempt hits the same-day branch and leaves the streak at its initial 0
instead of resetting it to 1. -/
theorem streak_day_boundary_counterexample :
    (tW2.students "s1").map Student.streak_days = some 0 ∧
    (tW3.students "s1").map Student.streak_days = some 1 ∧
    (tW3.students "s1").map Student.streak_days ≠ some 2 := by
  refine ⟨by decide, by decide, ?_⟩
  rw [show (tW3.students "s1").map Student.streak_days = some 1 by decide]
  decide

/-- C7 (amended): recording on the stored `last_quiz_date` leaves the
streak unchanged, recording exactly one calendar day later increments it
by 1, and any other gap resets it to 1 — but `last_quiz_date` is
initialised at creation to the creation date (never unset) with
`streak_days = 0`, so a first attempt on the creation day leaves the
streak at 0; hence a student created on day 1 attempting on day 1 and
then on day 2 ends with `streak_days = 1` (and day 1 then day 4 also
gives 1). -/
theorem streak_rules (t : StudentTracker) (sid name : String) (grade : ℕ)
    (fav : String) (qid : ℕ) (diff rt : ℚ) (ic : Bool) (att : ℕ)
    (st : Option String) (today tc : ℤ) :
    (t.students sid = none →
      ∃ s₀, (create_student t sid name grade fav tc).1.students sid = some s₀ ∧
        s₀.streak_days = 0 ∧ s₀.last_quiz_date = tc) ∧
    (∀ s, t.students sid = some s →
      ∃ s', (record_quiz_attempt t sid qid diff rt ic att st today).1.students sid = some s' ∧
        s'.last_quiz_date = today ∧
        (s.last_quiz_date = today → s'.streak_days = s.streak_days) ∧
        (s.last_quiz_date ≠ today → s.last_quiz_date = today - 1 →
          s'.streak_days = s.streak_days + 1) ∧
        (s.last_quiz_date ≠ today → s.last_quiz_date ≠ today - 1 →
          s'.streak_days = 1)) := by
  constructor
  · intro hn
    exact ⟨_, ((create_student_spec t sid name grade fav tc).2.1 hn).2.1, rfl, rfl⟩
  · intro s hs
    obtain ⟨-, -, hs'⟩ := record_quiz_attempt_spec t sid qid diff rt ic att st today s hs
    refine ⟨_, hs', rfl, fun hsame => ?_, fun hne hyest => ?_, fun hne hnyest => ?_⟩
    · simp [recordedStudent, hsame]
    · simp only [recordedStudent]
      rw [if_neg hne, if_pos hyest]
    · simp only [recordedStudent]
      rw [if_neg hne, if_neg hnyest]

/-- Witness for C7 (amended): creation on day 1, a same-day attempt, a
next-day attempt, and an attempt after a two-day gap. -/
theorem streak_rules_witness :
    StudentTracker.empty.students "s1" = none ∧
    (∃ s₀, tW1.students "s1" = some s₀ ∧ s₀.streak_days = 0 ∧ s₀.last_quiz_date = 1) ∧
    tW1.students "s1" = some studentFresh ∧
    studentFresh.last_quiz_date = (1:ℤ) ∧
    (tW2.students "s1").map Student.streak_days = some studentFresh.streak_days ∧
    tW2.students "s1" = some studentAfterFirst ∧
    studentAfterFirst.last_quiz_date = (2:ℤ) - 1 ∧
    (tW3.students "s1").map Student.streak_days = some (studentAfterFirst.streak_days + 1) ∧
    ((record_quiz_attempt tW2 "s1" 3 2 10 true 1 none 4).1.students "s1").map
      Student.streak_days = some 1 := by
  have hcreate := (streak_rules StudentTracker.empty "s1" "Alice" 5 "General"
    1 2 15 true 1 none 1 1).1 rfl
  obtain ⟨s₁, hs₁, hlast₁, hsame, -, -⟩ :=
    (streak_rules tW1 "s1" "x" 0 "x" 1 2 15 true 1 none 1 0).2 studentFresh rfl
  obtain ⟨s₂, hs₂, hlast₂, -, hplus, -⟩ :=
    (streak_rules tW2 "s1" "x" 0 "x" 2 2 25 true 1 none 2 0).2 studentAfterFirst rfl
  obtain ⟨s₃, hs₃, hlast₃, -, -, hreset⟩ :=
    (streak_rules tW2 "s1" "x" 0 "x" 3 2 10 true 1 none 4 0).2 studentAfterFirst rfl
  refine ⟨rfl, hcreate, rfl, rfl, ?_, rfl, by decide, ?_, ?_⟩
  · rw [show tW2.students "s1" = some s₁ from hs₁, Option.map_some', hsame (by decide)]
  · rw [show tW3.students "s1" = some s₂ from hs₂, Option.map_some',
      hplus (by decide) (by decide)]
  · rw [hs₃, Option.map_some', hreset (by decide) (by decide)]

/-- C4: the snapshot lookup signals not-found exactly when the student is
absent; an existing student with an empty log gets the defaults (accuracy
0.5, recent accuracy 0.5, average response time 0.0, average attempts
1.0); an existing student with a non-empty log gets accuracy
`correct / total`, recent accuracy over the last `min 10 total` log
records, and average attempts over the entire log. -/
theorem get_student_performance_spec (t : StudentTracker) (sid : String)
    (hreach : Reachable t) :
    (get_student_performance t sid = none ↔ t.students sid = none) ∧
    (∀ s, t.students sid = some s → t.performance_history sid = [] →
      ∃ out, get_student_performance t sid = some out ∧
        out.accuracy = 1/2 ∧ out.recent_accuracy = 1/2 ∧
        out.avg_response_time = 0 ∧ out.avg_attempts = 1) ∧
    (∀ s, t.students sid = some s → t.performance_history sid ≠ [] →
      ∃ out, get_student_performance t sid = some out ∧
        out.accuracy = (s.correct_answers : ℚ) / (s.total_questions : ℚ) ∧
        out.recent_accuracy =
          (((((t.performance_history sid).drop
              ((t.performance_history sid).length - 10)).filter
            fun r => r.is_correct).length : ℕ) : ℚ)
            / ((min 10 (t.performance_history sid).length : ℕ) : ℚ) ∧
        out.avg_attempts =
          ((t.performance_history sid).map fun r => (r.attempts : ℚ)).sum /
            ((t.performance_history sid).length : ℚ)) := by
  refine ⟨?_, fun s hs hh => ?_, fun s hs hh => ?_⟩
  · cases hc : t.students sid with
    | none => simp [get_student_performance, hc]
    | some s =>
        simp only [get_student_performance, hc]
        constructor
        · intro h
          exact absurd h (by split <;> simp)
        · intro h
          exact absurd h (by simp)
  · have havg : s.avg_response_time = 0 := (reachable_inv t hreach sid s hs).1 hh
    have h0 : get_student_performance t sid
        = some { student_id := sid,
                 current_difficulty := s.current_difficulty,
                 accuracy := 1/2,
                 avg_response_time := s.avg_response_time,
                 avg_attempts := 1,
                 recent_accuracy := 1/2,
                 total_questions := s.total_questions,
                 states_visited_count := s.states_visited.length,
                 streak_days := none, grade := none, favorite_state := none } := by
      unfold get_student_performance
      rw [hs]
      simp [hh]
    exact ⟨_, h0, rfl, rfl, havg, rfl⟩
  · have htq : 1 ≤ s.total_questions := (reachable_inv t hreach sid s hs).2 hh
    have hmax : max s.total_questions 1 = s.total_questions := max_eq_left htq
    have hdrop : (if (t.performance_history sid).length ≥ 10
          then (t.performance_history sid).drop ((t.performance_history sid).length - 10)
          else t.performance_history sid)
        = (t.performance_history sid).drop ((t.performance_history sid).length - 10) := by
      split_ifs with h10
      · rfl
      · rw [show (t.performance_history sid).length - 10 = 0 from by omega, List.drop_zero]
    have hlen : ((t.performance_history sid).drop
          ((t.performance_history sid).length - 10)).length
        = min 10 (t.performance_history sid).length := by
      rw [List.length_drop]
      omega
    have h0 : get_student_performance t sid
        = some { student_id := sid,
                 current_difficulty := s.current_difficulty,
                 accuracy := (s.correct_answers : ℚ) / ((max s.total_questions 1 : ℕ) : ℚ),
                 avg_response_time := s.avg_response_time,
                 avg_attempts := ((t.performance_history sid).map
                     fun r => (r.attempts : ℚ)).sum /
                   ((t.performance_history sid).length : ℚ),
                 recent_accuracy :=
                   (((((t.performance_history sid).drop
                       ((t.performance_history sid).length - 10)).filter
                     fun r => r.is_correct).length : ℕ) : ℚ)
                     / ((((t.performance_history sid).drop
                       ((t.performance_history sid).length - 10)).length : ℕ) : ℚ),
                 total_questions := s.total_questions,
                 states_visited_count := s.states_visited.length,
                 streak_days := some s.streak_days, grade := some s.grade,
                 favorite_state := some s.favorite_state } := by
      unfold get_student_performance
      rw [hs]
      dsimp only
      rw [if_neg (by simp [hh] : ¬((t.performance_history sid).isEmpty = true))]
      rw [hdrop]
    refine ⟨_, h0, ?_, ?_, rfl⟩
    · rw [hmax]
    · rw [hlen]

/-- Witness for C4: the nonexistent student `"zz"`, the zero-attempt
student of `tW1`, and the two-attempt student of `tW3`. -/
theorem get_student_performance_spec_witness :
    (get_student_performance tW3 "zz" = none ↔ tW3.students "zz" = none) ∧
    tW1.students "s1" = some studentFresh ∧
    tW1.performance_history "s1" = [] ∧
    (∃ out, get_student_performance tW1 "s1" = some out ∧
      out.accuracy = 1/2 ∧ out.recent_accuracy = 1/2 ∧
      out.avg_response_time = 0 ∧ out.avg_attempts = 1) ∧
    tW3.students "s1" = some studentAfterSecond ∧
    tW3.performance_history "s1" ≠ [] ∧
    (∃ out, get_student_performance tW3 "s1" = some out ∧
      out.accuracy = (studentAfterSecond.correct_answers : ℚ)
        / (studentAfterSecond.total_questions : ℚ) ∧
      out.recent_accuracy =
        (((((tW3.performance_history "s1").drop
            ((tW3.performance_history "s1").length - 10)).filter
          fun r => r.is_correct).length : ℕ) : ℚ)
          / ((min 10 (tW3.performance_history "s1").length : ℕ) : ℚ) ∧
      out.avg_attempts =
        ((tW3.performance_history "s1").map fun r => (r.attempts : ℚ)).sum /
          ((tW3.performance_history "s1").length : ℚ)) := by
  have hr1 : Reachable tW1 := Reachable.create _ _ _ _ _ _ Reachable.empty
  have hr2 : Reachable tW2 := Reachable.record _ _ _ _ _ _ _ _ _ hr1
  have hr3 : Reachable tW3 := Reachable.record _ _ _ _ _ _ _ _ _ hr2
  have hs1 : tW1.students "s1" = some studentFresh := rfl
  have hh1 : tW1.performance_history "s1" = [] := rfl
  have hs3 : tW3.students "s1" = some studentAfterSecond := by
    norm_num [tW3, tW2, tW1, record_quiz_attempt, create_student, StudentTracker.empty,
      trimHistory, studentAfterSecond]
  have hh3 : tW3.performance_history "s1" ≠ [] := by
    intro h
    exact absurd h (by decide)
  exact ⟨(get_student_performance_spec tW3 "zz" hr3).1, hs1, hh1,
    (get_student_performance_spec tW1 "s1" hr1).2.1 studentFresh hs1 hh1,
    hs3, hh3,
    (get_student_performance_spec tW3 "s1" hr3).2.2 studentAfterSecond hs3 hh3⟩

/-- C10: for an existing student, `update_difficulty` succeeds and stores
exactly the supplied value (no clamping or range validation), and the
next snapshot reports that exact value as the current difficulty — also
when it lies outside [1, 10]. -/
theorem update_difficulty_unclamped (t : StudentTracker) (sid : String)
    (s : Student) (d : ℚ) (hs : t.students sid = some s) :
    (update_difficulty t sid d).2 = true ∧
    ∃ out, get_student_performance (update_difficulty t sid d).1 sid = some out ∧
      out.current_difficulty = d := by
  obtain ⟨hret, hsid, -, -⟩ := update_difficulty_spec_lemma t sid d s hs
  refine ⟨hret, ?_⟩
  have hmap : (get_student_performance (update_difficulty t sid d).1 sid).map
      PerformanceData.current_difficulty = some d := by
    unfold get_student_performance
    rw [hsid]
    dsimp only
    split
    · rfl
    · rfl
  cases hg : get_student_performance (update_difficulty t sid d).1 sid with
  | none => rw [hg] at hmap; exact absurd hmap (by simp)
  | some out =>
      rw [hg] at hmap
      exact ⟨out, rfl, by simpa using hmap⟩

/-- Witness for C10: storing 42 (outside [1, 10]) for the student of
`tW1` and reading it back from the snapshot. -/
theorem update_difficulty_unclamped_witness :
    tW1.students "s1" = some studentFresh ∧
    (10:ℚ) < 42 ∧
    (update_difficulty tW1 "s1" 42).2 = true ∧
    (∃ out, get_student_performance (update_difficulty tW1 "s1" 42).1 "s1" = some out ∧
      out.current_difficulty = 42) := by
  have h := update_difficulty_unclamped tW1 "s1" studentFresh 42 rfl
  exact ⟨rfl, by decide, h.1, h.2⟩

end BTP
